import Mathlib

set_option maxRecDepth 100000

/-!
Shallow embedding of the incremental ingestion and data-lifecycle engine of
the synthea-data-generation-airflow repository.

Embedded source files:
- `src/dags/s3_to_snowflake_load_dag.py` — watermark-driven incremental load
  (`get_last_watermark`, `list_new_s3_files`, `load_files_to_snowflake`,
  `update_watermark`, and the task-dependency chain of the DAG);
- `src/dags/s3_upload_dag.py` — upload lifecycle
  (`scan_for_new_patients`, `upload_to_s3`, `mark_as_uploaded`);
- `src/dags/synthea_generation_dag.py` — retention sweep (`cleanup_old_bundles`).

External services (S3, Snowflake) are modelled by explicit parameters: the S3
listing is a list of keys, the Snowflake stage contents a list of keys, and
the SQL statements a loader issues are returned as an explicit operation log.
Timestamp columns that never influence control flow (LAST_PROCESSED_TIME,
LOAD_TIMESTAMP) are omitted from the watermark row.
-/

/-! ### Python string membership

`list_new_s3_files` filters candidates with the Python expression
`key not in last_watermark`, which is substring containment of `key`
inside the watermark string.  We embed `needle in haystack` directly. -/

/-- Is `pre` a prefix of the character list? (Python slice-equality helper.) -/
def startsWithList : List Char → List Char → Bool
  | [], _ => true
  | _ :: _, [] => false
  | a :: as, b :: bs => a == b && startsWithList as bs

/-- Does `needle` occur as a contiguous substring of the character list? -/
def containsList (needle : List Char) : List Char → Bool
  | [] => startsWithList needle []
  | c :: cs => startsWithList needle (c :: cs) || containsList needle cs

/-- Python `needle in haystack` on strings: substring containment. -/
def pyInStr (needle haystack : String) : Bool :=
  containsList needle.toList haystack.toList

/-- Python `s.endswith(suff)` / the `key.endswith('.json')` test: the suffix
read backwards is a prefix of the string read backwards. -/
def strEndsWith (s suff : String) : Bool :=
  startsWithList suff.toList.reverse s.toList.reverse

/-! ### Python `sorted` on strings

`update_watermark` computes `sorted(new_files)[-1]`.  Python sorts strings
lexicographically by code point; we embed a stable insertion sort over the
same ordering. -/

/-- Lexicographic `≤` on character lists by Unicode code point,
matching Python string comparison. -/
def lexLeChars : List Char → List Char → Bool
  | [], _ => true
  | _ :: _, [] => false
  | a :: as, b :: bs =>
    if a.val < b.val then true
    else if b.val < a.val then false
    else lexLeChars as bs

/-- Lexicographic `≤` on strings (Python string ordering). -/
def strLe (a b : String) : Bool :=
  lexLeChars a.toList b.toList

/-- Insert a key into an already-sorted list (ascending). -/
def insertKey (k : String) : List String → List String
  | [] => [k]
  | x :: xs => if strLe k x then k :: x :: xs else x :: insertKey k xs

/-- Python `sorted` on a list of keys: stable ascending sort. -/
def sortKeys : List String → List String
  | [] => []
  | k :: ks => insertKey k (sortKeys ks)

/-! ### Watermark store (`SYNTHEA.RAW.LOAD_WATERMARK`)

Rows ordered by ascending autoincrement `LOAD_ID`; appending a row adds at
the end, and `ORDER BY LOAD_ID DESC LIMIT 1` reads the last element. -/

/-- One row of the LOAD_WATERMARK table (timestamp columns omitted:
they are `CURRENT_TIMESTAMP()` values never read by the pipeline logic). -/
structure WatermarkRow where
  lastProcessedKey : String
  filesProcessed : Nat
deriving DecidableEq

/-- `get_last_watermark`: most recently appended row's key, or `none` on
first run (empty table). -/
def get_last_watermark (store : List WatermarkRow) : Option String :=
  store.getLast?.map (fun r => r.lastProcessedKey)

/-! ### `list_new_s3_files`

Faithful to the source: keep keys ending in `.json`; if a (truthy, i.e.
non-empty) watermark exists, keep a key only when it is NOT a substring of
the watermark string (`if key not in last_watermark`); cap at 100. -/

/-- `list_new_s3_files` from `s3_to_snowflake_load_dag.py`:
`allKeys` is the S3 listing under the prefix, `lastWatermark` the XCom value
pulled from `get_last_watermark` (Python falsy on `None` and `""`). -/
def list_new_s3_files (allKeys : List String) (lastWatermark : Option String) :
    List String :=
  let fhirFiles := allKeys.filter (fun k => strEndsWith k ".json")
  let newFiles :=
    match lastWatermark with
    | some w => if w = "" then fhirFiles else fhirFiles.filter (fun k => !pyInStr k w)
    | none => fhirFiles
  newFiles.take 100

/-! ### `load_files_to_snowflake`

The loader issues SQL through the Snowflake hook; we log each statement as an
explicit operation.  The `COPY INTO` reads from the whole stage
`@..S3_FHIR_STAGE` with `PATTERN = '.*\.json'`, so its coverage is every
`.json` key in the stage, independent of the candidate list. -/

/-- SQL operations issued by the loader, in order.  `copyInto` carries the
set of stage keys the COPY statement's pattern covers. -/
inductive SqlOp where
  | createStage : SqlOp
  | copyInto : List String → SqlOp
  | countQuery : SqlOp
deriving DecidableEq

/-- Result dictionary returned by `load_files_to_snowflake`
(the empty-candidate return carries no `total_records` entry). -/
structure LoadResult where
  filesLoaded : Nat
  totalRecords : Option Nat
deriving DecidableEq

/-- The keys covered by the `COPY INTO ... PATTERN = '.*\.json'` statement:
every `.json` object in the stage, regardless of the candidate list. -/
def copyCoverage (stageKeys : List String) : List String :=
  stageKeys.filter (fun k => strEndsWith k ".json")

/-- `load_files_to_snowflake`: on an empty candidate list return
`{"files_loaded": 0}` before any hook call; otherwise create the stage, run
one bulk COPY over the whole stage, count rows, and report
`files_loaded = len(new_files)` (not the COPY's own load count).
`countAfter` abstracts the row count the final `SELECT COUNT(*)` returns. -/
def load_files_to_snowflake (newFiles stageKeys : List String) (countAfter : Nat) :
    List SqlOp × LoadResult :=
  if newFiles.isEmpty then
    ([], { filesLoaded := 0, totalRecords := none })
  else
    ([SqlOp.createStage, SqlOp.copyInto (copyCoverage stageKeys), SqlOp.countQuery],
     { filesLoaded := newFiles.length, totalRecords := some countAfter })

/-! ### `update_watermark` and the ingestion cycle -/

/-- `update_watermark`: skip when no files were listed; otherwise append one
row whose key is `sorted(new_files)[-1]` and whose count is the loader's
`files_loaded`. -/
def update_watermark (newFiles : List String) (filesLoaded : Nat)
    (store : List WatermarkRow) : List WatermarkRow :=
  if newFiles.isEmpty then store
  else
    store ++ [{ lastProcessedKey := (sortKeys newFiles).getLastD "",
                filesProcessed := filesLoaded }]

/-- One run of the `s3_to_snowflake_load` DAG along its dependency chain
`get_last_watermark >> list_new_s3_files >> load_files_to_snowflake >>
update_watermark`.  `loadRaises` models a hard Snowflake failure inside the
load task: the task fails and `update_watermark` (default `all_success`
trigger rule) never runs, leaving the store unchanged.  With an empty
candidate list the loader short-circuits before any remote call, so no
failure can occur there.  Returns the new watermark store and whether the
run succeeded. -/
def runCycle (s3Keys stageKeys : List String) (loadRaises : Bool)
    (countAfter : Nat) (store : List WatermarkRow) :
    List WatermarkRow × Bool :=
  let lastWatermark := get_last_watermark store
  let newFiles := list_new_s3_files s3Keys lastWatermark
  if newFiles.isEmpty then (store, true)
  else if loadRaises then (store, false)
  else
    let res := (load_files_to_snowflake newFiles stageKeys countAfter).2
    (update_watermark newFiles res.filesLoaded store, true)

/-! ### Upload DAG (`s3_upload_dag.py`)

The local bundle store is a list of patient directories; each carries the
names of its `*.json` files and whether the `.uploaded` marker file exists
(the marker is not a `.json` file, so it never appears in `jsonFiles`). -/

/-- A directory under `/opt/airflow/output/bundles` (only directories are
modelled; `scan_for_new_patients` skips non-directories). -/
structure PatientDir where
  name : String
  hasMarker : Bool
  jsonFiles : List String
deriving DecidableEq

/-- `scan_for_new_patients`: directories with no `.uploaded` marker and at
least one `*.json` file.  A pure read of the store. -/
def scan_for_new_patients (store : List PatientDir) : List String :=
  (store.filter (fun d => !d.hasMarker && !d.jsonFiles.isEmpty)).map
    (fun d => d.name)

/-- Inner loop of `upload_to_s3` over one folder's `*.json` files:
each successful `load_file` increments the counter; a failing put raises,
aborting the whole task with that file. -/
def uploadFilesLoop (putOk : String → Bool) : List String → Nat → Except String Nat
  | [], n => .ok n
  | f :: fs, n => if putOk f then uploadFilesLoop putOk fs (n + 1) else .error f

/-- Outer loop of `upload_to_s3` over the new folders, threading the folder
and file counters; the first raising put aborts everything. -/
def uploadFoldersLoop (folderFiles : String → List String)
    (putOk : String → String → Bool) :
    List String → Nat → Nat → Except String (Nat × Nat)
  | [], nFolders, nFiles => .ok (nFolders, nFiles)
  | d :: ds, nFolders, nFiles =>
    match uploadFilesLoop (putOk d) (folderFiles d) nFiles with
    | .error f => .error f
    | .ok nFiles2 => uploadFoldersLoop folderFiles putOk ds (nFolders + 1) nFiles2

/-- Return value of `upload_to_s3`, including the `uploaded_folders` XCom it
pushes (pushed only when the loops finish without raising). -/
structure UploadResult where
  uploadedFolders : Nat
  uploadedFiles : Nat
  xcomUploadedFolders : Option (List String)
deriving DecidableEq

/-- `upload_to_s3`: Python-falsy folder list short-circuits; otherwise upload
every `*.json` file of every folder, raising on the first failed put.
`putOk folder file` tells whether `s3_hook.load_file` succeeds for that
file.  `Except.error f` models the task failing with the exception raised
while uploading `f`. -/
def upload_to_s3 (newFolders : Option (List String))
    (folderFiles : String → List String) (putOk : String → String → Bool) :
    Except String UploadResult :=
  match newFolders with
  | none => .ok { uploadedFolders := 0, uploadedFiles := 0, xcomUploadedFolders := none }
  | some [] => .ok { uploadedFolders := 0, uploadedFiles := 0, xcomUploadedFolders := none }
  | some ds =>
    match uploadFoldersLoop folderFiles putOk ds 0 0 with
    | .error f => .error f
    | .ok (nd, nf) =>
      .ok { uploadedFolders := nd, uploadedFiles := nf, xcomUploadedFolders := some ds }

/-- Write the `.uploaded` marker file into every directory with the given
name. -/
def writeMarker (store : List PatientDir) (folderName : String) : List PatientDir :=
  store.map (fun d => if d.name = folderName then { d with hasMarker := true } else d)

/-- `mark_as_uploaded`: pulls the `uploaded_folders` XCom (Python-falsy
short-circuit on `None` or `[]`), writes a marker per folder, and returns the
updated store with the marked count. -/
def mark_as_uploaded (xcomFolders : Option (List String))
    (store : List PatientDir) : List PatientDir × Nat :=
  match xcomFolders with
  | none => (store, 0)
  | some [] => (store, 0)
  | some ds => (ds.foldl writeMarker store, ds.length)

/-! ### Retention sweep (`cleanup_old_bundles` in `synthea_generation_dag.py`) -/

/-- One `*.json` file of a staged patient folder, with its modification time
in seconds since the epoch. -/
structure BundleFile where
  name : String
  mtime : Int
deriving DecidableEq

/-- One patient folder under the bundle storage directory; `files` are its
`*.json` files (the only files whose age the sweep inspects). -/
structure PatientFolder where
  name : String
  files : List BundleFile
deriving DecidableEq

/-- Deletion test of `cleanup_old_bundles`: delete the folder when any of its
`*.json` files has `st_mtime < cutoff_time`. -/
def shouldDeleteFolder (cutoff : Int) (d : PatientFolder) : Bool :=
  d.files.any (fun f => decide (f.mtime < cutoff))

/-- `cleanup_old_bundles`: with `cutoff_time = now − 24·60·60`, delete (via
`rmtree`) every folder in which some `*.json` file is strictly older than the
cutoff.  Returns the surviving folders plus the `deleted_folders` and
`deleted_files` statistics. -/
def cleanup_old_bundles (now : Int) (folders : List PatientFolder) :
    List PatientFolder × Nat × Nat :=
  let cutoff := now - 24 * 60 * 60
  let deleted := folders.filter (fun d => shouldDeleteFolder cutoff d)
  (folders.filter (fun d => !shouldDeleteFolder cutoff d),
   deleted.length,
   (deleted.map (fun d => d.files.length)).sum)

/-! ### Concrete inputs used by counterexamples and witnesses -/

/-- Two-key S3 listing used to exercise successive ingestion cycles. -/
def demoSetAB : List String := ["raw/patients/a.json", "raw/patients/b.json"]

/-- Two-key S3 listing whose keys share every character but the digit. -/
def demoSetP : List String := ["raw/patients/p1.json", "raw/patients/p2.json"]

/-- 150 distinct `.json` keys under the patients prefix. -/
def demoKeys : List String :=
  (List.range 150).map (fun i => "raw/patients/p" ++ toString i ++ ".json")

/-- A folder layout with three files per entity. -/
def threeDemoFiles : String → List String := fun _ => ["f1", "f2", "f3"]

/-- An S3 put that fails exactly on file `f2`. -/
def putFailsF2 : String → String → Bool := fun _ f => f != "f2"

/-- Reference time for the retention scenarios: 100 hours past the epoch. -/
def tNow : Int := 100 * 60 * 60

/-- Entity with one file aged 25 hours and one aged 1 hour. -/
def entA : PatientFolder :=
  { name := "A", files := [{ name := "old", mtime := tNow - 25 * 60 * 60 },
                           { name := "fresh", mtime := tNow - 60 * 60 }] }

/-- Entity whose files are all aged 1 hour. -/
def entB : PatientFolder :=
  { name := "B", files := [{ name := "fresh1", mtime := tNow - 60 * 60 },
                           { name := "fresh2", mtime := tNow - 60 * 60 }] }

example : pyInStr "p5.json" "raw/patients/p5.json" = true := by decide
example : pyInStr "p3.json" "raw/patients/p5.json" = false := by decide
example : sortKeys demoSetAB = demoSetAB := by decide


/-! ## Theorems -/

/-- With no watermark the lister is exactly the `.json` filter of the S3
listing, capped at 100. -/
theorem list_new_none_eq (keys : List String) :
    list_new_s3_files keys none
      = (keys.filter (fun k => strEndsWith k ".json")).take 100 := rfl

/-- Claim C1: the spec says `list_new_s3_files` keeps exactly the keys
lexicographically strictly greater than the watermark, so that watermark
`"raw/patients/p5.json"` against candidates `p3/p5/p6/p7.json` yields
`["p6.json", "p7.json"]`.  The code instead filters by substring containment
(`key not in last_watermark`): `"p3.json"` is not a substring of the
watermark, so it is kept, and the code returns
`["p3.json", "p6.json", "p7.json"]`, not the claimed list. -/
theorem list_new_substring_divergence :
    list_new_s3_files ["p3.json", "p5.json", "p6.json", "p7.json"]
        (some "raw/patients/p5.json")
      = ["p3.json", "p6.json", "p7.json"] ∧
    list_new_s3_files ["p3.json", "p5.json", "p6.json", "p7.json"]
        (some "raw/patients/p5.json")
      ≠ ["p6.json", "p7.json"] := by decide

/-- Claim C2: the spec's round-trip property says a key listed, loaded in a
successful batch and superseded by the appended watermark never reappears.
On the fixed object set `{raw/patients/a.json, raw/patients/b.json}` the
first cycle lists both keys, loads them successfully, and appends watermark
`raw/patients/b.json`; yet the next listing with that watermark contains
`raw/patients/a.json` again, because the substring filter does not exclude
it. -/
theorem roundtrip_reappearance_divergence :
    "raw/patients/a.json" ∈ list_new_s3_files demoSetAB (get_last_watermark []) ∧
    runCycle demoSetAB demoSetAB false 2 []
      = ([{ lastProcessedKey := "raw/patients/b.json", filesProcessed := 2 }], true) ∧
    "raw/patients/a.json" ∈
      list_new_s3_files demoSetAB
        (get_last_watermark (runCycle demoSetAB demoSetAB false 2 []).1) := by
  decide

/-- Claim C3: the spec says the `lastProcessedKey` values appended across
cycles are non-decreasing lexicographically.  Two successful cycles over the
fixed object set `{raw/patients/p1.json, raw/patients/p2.json}` append
`raw/patients/p2.json` and then `raw/patients/p1.json`: a strictly
decreasing pair, violating the invariant. -/
theorem watermark_monotonicity_divergence :
    ((runCycle demoSetP demoSetP false 1
        (runCycle demoSetP demoSetP false 2 []).1).1.map
      (fun r => r.lastProcessedKey))
      = ["raw/patients/p2.json", "raw/patients/p1.json"] ∧
    strLe "raw/patients/p2.json" "raw/patients/p1.json" = false := by decide

/-- Claim C9: `load_files_to_snowflake` on an empty candidate list returns
`files_loaded = 0` (with no record count, since the count query never runs)
and issues no SQL operation at all, leaving the warehouse untouched. -/
theorem empty_batch_short_circuits (stageKeys : List String) (countAfter : Nat) :
    load_files_to_snowflake [] stageKeys countAfter
      = ([], { filesLoaded := 0, totalRecords := none }) := rfl

/-- Claim C5: for every non-empty candidate list the loader issues exactly
one COPY operation, whose coverage is every `.json` key in the stage (not
just the candidates), and reports `files_loaded` equal to the length of the
candidate list — for every possible warehouse row count, i.e. independent of
what the bulk load actually ingested. -/
theorem copy_covers_stage_and_reports_candidate_count
    (newFiles stageKeys : List String) (countAfter : Nat) (h : newFiles ≠ []) :
    (load_files_to_snowflake newFiles stageKeys countAfter).1
      = [SqlOp.createStage, SqlOp.copyInto (copyCoverage stageKeys), SqlOp.countQuery]
    ∧ (load_files_to_snowflake newFiles stageKeys countAfter).2.filesLoaded
        = newFiles.length := by
  cases newFiles with
  | nil => exact absurd rfl h
  | cons a as => exact ⟨rfl, rfl⟩

/-- Witness for claim C5 at a concrete non-empty candidate list. -/
theorem copy_covers_stage_witness :
    (load_files_to_snowflake ["a.json"] ["a.json", "b.txt", "c.json"] 5).1
      = [SqlOp.createStage, SqlOp.copyInto (copyCoverage ["a.json", "b.txt", "c.json"]),
         SqlOp.countQuery]
    ∧ (load_files_to_snowflake ["a.json"] ["a.json", "b.txt", "c.json"] 5).2.filesLoaded
        = (["a.json"] : List String).length :=
  copy_covers_stage_and_reports_candidate_count
    ["a.json"] ["a.json", "b.txt", "c.json"] 5 (by decide)

/-- Claim C6: when the load task raises a hard failure, `update_watermark`
(downstream under the default all-success trigger rule) never runs, so the
cycle leaves the watermark store exactly as it found it. -/
theorem load_failure_leaves_watermark_unchanged (s3Keys stageKeys : List String)
    (countAfter : Nat) (store : List WatermarkRow) :
    (runCycle s3Keys stageKeys true countAfter store).1 = store := by
  unfold runCycle
  by_cases h : (list_new_s3_files s3Keys (get_last_watermark store)).isEmpty
  · simp [h]
  · simp [h]

/-- Claim C10: the lister never returns more than 100 keys, and when every
listed key is a `.json` key, no watermark exists and at least 100 keys are
present, it returns exactly the first 100 keys in listing order. -/
theorem list_new_caps_at_100 (keys : List String) (wm : Option String)
    (hjson : ∀ k ∈ keys, strEndsWith k ".json" = true)
    (hlen : 100 ≤ keys.length) :
    (list_new_s3_files keys wm).length ≤ 100 ∧
    list_new_s3_files keys none = keys.take 100 ∧
    (list_new_s3_files keys none).length = 100 := by
  have hfilter : keys.filter (fun k => strEndsWith k ".json") = keys :=
    List.filter_eq_self.mpr hjson
  refine ⟨?_, ?_, ?_⟩
  · unfold list_new_s3_files
    exact List.length_take_le _ _
  · rw [list_new_none_eq, hfilter]
  · rw [list_new_none_eq, hfilter, List.length_take]
    omega

/-- Witness for claim C10: 150 concrete `.json` keys with no watermark give
exactly 100 listed keys. -/
theorem list_new_caps_witness :
    (∀ k ∈ demoKeys, strEndsWith k ".json" = true) ∧
    100 ≤ demoKeys.length ∧
    (list_new_s3_files demoKeys none).length = 100 :=
  ⟨by decide, by decide,
    (list_new_caps_at_100 demoKeys none (by decide) (by decide)).2.2⟩

/-- Claim C7: the sweep deletes a staged entity exactly when at least one of
its `.json` files is strictly older than `now − 24h`; per-entity age is
decided by the oldest file. -/
theorem sweep_deletes_iff_stale_file (now : Int) (folders : List PatientFolder)
    (d : PatientFolder) (hd : d ∈ folders) :
    d ∉ (cleanup_old_bundles now folders).1 ↔
      ∃ f ∈ d.files, f.mtime < now - 24 * 60 * 60 := by
  show d ∉ folders.filter (fun x => !shouldDeleteFolder (now - 24 * 60 * 60) x) ↔
      ∃ f ∈ d.files, f.mtime < now - 24 * 60 * 60
  rw [List.mem_filter]
  simp only [hd, true_and, shouldDeleteFolder, Bool.not_eq_true', Bool.not_eq_false,
    List.any_eq_true, decide_eq_true_eq]

/-- Witness for claim C7: entity `A` (files aged 25h and 1h) is wholly
deleted while entity `B` (all files aged 1h) survives. -/
theorem sweep_deletes_witness :
    entA ∉ (cleanup_old_bundles tNow [entA, entB]).1 ∧
    entB ∈ (cleanup_old_bundles tNow [entA, entB]).1 := by
  constructor
  · exact (sweep_deletes_iff_stale_file tNow [entA, entB] entA (by decide)).mpr
      (by decide)
  · exact not_not.mp (fun h => absurd
      ((sweep_deletes_iff_stale_file tNow [entA, entB] entB (by decide)).mp h)
      (by decide))

/-- Claim C8: a staged entity is listed by `scan_for_new_patients` exactly
when it carries no `.uploaded` marker and has at least one `.json` file (the
scan itself is a pure read of the store); once `mark_as_uploaded` writes the
marker for that entity, subsequent scans exclude it. -/
theorem scan_includes_iff_unmarked_nonempty (store : List PatientDir) (E : String) :
    (E ∈ scan_for_new_patients store ↔
      ∃ d ∈ store, d.name = E ∧ d.hasMarker = false ∧ d.jsonFiles ≠ []) ∧
    E ∉ scan_for_new_patients (mark_as_uploaded (some [E]) store).1 := by
  constructor
  · simp only [scan_for_new_patients, List.mem_map, List.mem_filter,
      Bool.and_eq_true, Bool.not_eq_true', List.isEmpty_eq_false]
    constructor
    · rintro ⟨d, ⟨hd, hm, hne⟩, rfl⟩
      exact ⟨d, hd, rfl, hm, hne⟩
    · rintro ⟨d, hd, rfl, hm, hne⟩
      exact ⟨d, ⟨hd, hm, hne⟩, rfl⟩
  · show E ∉ scan_for_new_patients (writeMarker store E)
    intro h
    simp only [scan_for_new_patients, writeMarker, List.mem_map, List.mem_filter,
      Bool.and_eq_true, Bool.not_eq_true', List.isEmpty_eq_false] at h
    rcases h with ⟨d, ⟨⟨d0, hd0, rfl⟩, hm, hne⟩, hname⟩
    by_cases h0 : d0.name = E
    · simp [h0] at hm
    · simp only [if_neg h0] at hname
      exact h0 hname

/-- Counterexample for claim C4: an entity with files `f1`, `f2`, `f3` where
the put of `f2` fails.  The claim says `upload_to_s3` collects the failure
and returns `filesUploaded = 2, failedFiles = ["f2"]`; the code instead
raises out of the loop at `f2`, aborting the task with no structured
result. -/
theorem upload_aborts_on_file_failure_cex :
    upload_to_s3 (some ["e1"]) threeDemoFiles putFailsF2 = .error "f2" := rfl

/-- If some file of a folder fails to upload, `uploadFilesLoop` raises with a
failing file rather than finishing. -/
theorem uploadFilesLoop_fails (putOk : String → Bool) :
    ∀ (files : List String) (n : Nat), (∃ f ∈ files, putOk f = false) →
      ∃ f, uploadFilesLoop putOk files n = .error f ∧ f ∈ files ∧ putOk f = false := by
  intro files
  induction files with
  | nil => intro n h; simp at h
  | cons a as ih =>
    intro n h
    by_cases ha : putOk a = true
    · have hex : ∃ f ∈ as, putOk f = false := by
        rcases h with ⟨f, hf, hfo⟩
        rcases List.mem_cons.mp hf with rfl | hmem
        · rw [ha] at hfo; cases hfo
        · exact ⟨f, hmem, hfo⟩
      rcases ih (n + 1) hex with ⟨f, heq, hmem, hfo⟩
      refine ⟨f, ?_, List.mem_cons_of_mem _ hmem, hfo⟩
      simpa [uploadFilesLoop, ha] using heq
    · have ha2 : putOk a = false := by
        cases hpa : putOk a with
        | true => exact absurd hpa ha
        | false => rfl
      exact ⟨a, by simp [uploadFilesLoop, ha2], List.mem_cons_self a as, ha2⟩

/-- Claim C4 as amended: for an entity among whose files some put fails,
`upload_to_s3` aborts at a failing file — raising the error instead of
collecting it into a result — and, the upload task having failed before it
could publish its `uploaded_folders` XCom, `mark_as_uploaded` (which still
runs under its all-done trigger rule but pulls a null XCom) writes no marker:
the entity is not marked uploaded. -/
theorem upload_abort_and_no_marking (d : String) (files : List String)
    (putOk : String → String → Bool) (store : List PatientDir)
    (h : ∃ f ∈ files, putOk d f = false) :
    (∃ f, upload_to_s3 (some [d]) (fun _ => files) putOk = .error f
        ∧ f ∈ files ∧ putOk d f = false) ∧
    mark_as_uploaded none store = (store, 0) := by
  constructor
  · rcases uploadFilesLoop_fails (putOk d) files 0 h with ⟨f, heq, hmem, hfo⟩
    refine ⟨f, ?_, hmem, hfo⟩
    simp [upload_to_s3, uploadFoldersLoop, heq]
  · rfl

/-- Witness for the amended claim C4 at the concrete 3-file entity whose
second file fails to upload. -/
theorem upload_abort_and_no_marking_witness :
    (∃ f ∈ ["f1", "f2", "f3"], putFailsF2 "e1" f = false) ∧
    ((∃ f, upload_to_s3 (some ["e1"]) (fun _ => ["f1", "f2", "f3"]) putFailsF2
          = .error f ∧ f ∈ ["f1", "f2", "f3"] ∧ putFailsF2 "e1" f = false) ∧
      mark_as_uploaded none [] = ([], 0)) :=
  ⟨by decide,
    upload_abort_and_no_marking "e1" ["f1", "f2", "f3"] putFailsF2 [] (by decide)⟩
